import Mathlib

/-!
Shallow embedding of `src/server.go` (package main of andrewstucki/mailer).

The program is an HTTP-to-email relay.  Its core is `Email.Send`: it derives
a domain from the configured inbox address, resolves MX records, and attempts
an SMTP transaction against each candidate server in order.  The HTTP boundary
(`SendHandler.ServeHTTP`) validates a request and detaches a send.

External effects (DNS lookup via `net.LookupMX`, SMTP via `smtp.SendMail`)
are passed in as function-valued oracles; `Send` additionally returns the
list of SMTP attempts it makes, so that ordering and absence of attempts are
statable.  Go strings are Lean `String`s; `strings.Split` on a one-character
separator is embedded as `splitOnChar` over `List Char`.
-/

/-- The `Email` struct of `server.go` (fields `From`, `Subject`, `Body`). -/
structure Email where
  From : String
  Subject : String
  Body : String
deriving DecidableEq

/-- The process-wide configuration globals `inboxAddress` and `outboundSender`
read from the environment at startup (`MAILER_INBOX`, `MAILER_SENDER`). -/
structure Config where
  inboxAddress : String
  outboundSender : String
deriving DecidableEq

/-- Go's `net.MX` record: a host and a preference value (only `Host` is used
by the program). -/
structure MX where
  host : String
  pref : Nat
deriving DecidableEq

/-- One SMTP delivery attempt as issued by `smtp.SendMail(server, nil,
outboundSender, []string{inboxAddress}, msg)`: the dialed server, the
envelope sender, the envelope recipients, and the message bytes. -/
structure Attempt where
  server : String
  mailFrom : String
  rcptTo : List String
  msg : String
deriving DecidableEq

/-- Go `strings.Split(s, sep)` for a one-character separator `c`, over the
character list of `s`.  Like Go's, it never returns an empty list: with no
occurrence of `c` the result is `[s]`. -/
def splitOnChar (c : Char) : List Char → List (List Char)
  | [] => [[]]
  | x :: xs =>
    match splitOnChar c xs with
    | [] => [[]]
    | t :: ts => if x = c then [] :: t :: ts else (x :: t) :: ts

/-- Lines 42-43 of `server.go` (and 76-77): `mailTokens :=
strings.Split(addr, "@"); domain := mailTokens[len(mailTokens)-1]`.
The token list is never empty, so the Go index never panics; `getLastD`'s
default is unreachable. -/
def extractDomain (addr : String) : String :=
  ((splitOnChar '@' addr.toList).getLastD []).asString

/-- Go `strings.TrimRight(s, ".")`: removes all trailing dots. -/
def trimTrailingDots (s : String) : String :=
  ((s.toList.reverse.dropWhile (fun x => x = '.')).reverse).asString

/-- Line 50 of `server.go`: `fmt.Sprintf("%s:25",
strings.TrimRight(server.Host, "."))`. -/
def serverAddr (host : String) : String :=
  trimTrailingDots host ++ ":25"

/-- The `email.Email` value built by `ConstructMessage` (lines 30-34):
the fields of the third-party message object that the program sets. -/
structure MessageRecord where
  msgFrom : String
  rcpts : List String
  subject : String
  text : String
deriving DecidableEq

/-- Lines 30-34 of `server.go`: `message := email.NewEmail(); message.From =
m.From; message.To = []string{inboxAddress}; message.Subject = m.Subject;
message.Text = []byte(m.Body)`. -/
def buildRecord (cfg : Config) (m : Email) : MessageRecord :=
  { msgFrom := m.From
    rcpts := [cfg.inboxAddress]
    subject := m.Subject
    text := m.Body }

/-- Modelled from the spec: the serialization step `message.Bytes()` of the
third-party `email` library is not part of this repository's source.  Per
spec 4.1 it "produces a complete RFC-5322-style email byte-stream with From,
a single To recipient (the fixed inbox address), Subject, and a plain-text
Body", is "deterministic given identical inputs" and "pure (no I/O, no side
effects)", and fails only on an unexpected serialization error.  It is
modelled as a pure header rendering that always succeeds. -/
def renderMessage (r : MessageRecord) : Except String String :=
  .ok ("From: " ++ r.msgFrom ++ "\r\nTo: " ++ String.intercalate ", " r.rcpts
    ++ "\r\nSubject: " ++ r.subject ++ "\r\n\r\n" ++ r.text)

/-- `Email.ConstructMessage` (lines 29-36 of `server.go`). -/
def ConstructMessage (cfg : Config) (m : Email) : Except String String :=
  renderMessage (buildRecord cfg m)

/-- The candidate loop of `Email.Send` (lines 53-70), returning the list of
SMTP attempts made.  `sendMail` is the `smtp.SendMail` oracle (`none` means
the transaction succeeded, `some err` that it failed).  Each iteration calls
`e.ConstructMessage()`; on a construction error the candidate is skipped; on
an SMTP success the loop breaks.  Inside the loop `msg, err :=` declares a
fresh, loop-local `err` that shadows the function-level `err`, so the loop's
errors never reach the `return err` at line 71. -/
def sendLoop (cfg : Config)
    (sendMail : String → String → List String → String → Option String)
    (e : Email) : List String → List Attempt
  | [] => []
  | server :: rest =>
    match ConstructMessage cfg e with
    | .error _ => sendLoop cfg sendMail e rest
    | .ok msg =>
      let att : Attempt :=
        { server := server
          mailFrom := cfg.outboundSender
          rcptTo := [cfg.inboxAddress]
          msg := msg }
      match sendMail server cfg.outboundSender [cfg.inboxAddress] msg with
      | none => [att]
      | some _ => att :: sendLoop cfg sendMail e rest

/-- `Email.Send` (lines 38-72 of `server.go`).  `lookupMX` is the
`net.LookupMX` oracle.  Returns the Go function's `error` result paired with
the trace of SMTP attempts.  The function-level `err` is assigned only by
`mxServers, err := net.LookupMX(domain)`; the loop's `msg, err :=` shadows
it, so after a successful lookup the value returned at line 71 is the
function-level `err`, which is nil — hence the first component is `none` on
the whole lookup-success branch, whatever the attempts produced. -/
def Send (cfg : Config)
    (lookupMX : String → Except String (List MX))
    (sendMail : String → String → List String → String → Option String)
    (e : Email) : Option String × List Attempt :=
  let domain := extractDomain cfg.inboxAddress
  match lookupMX domain with
  | .error err => (some err, [])
  | .ok mxServers =>
    let servers := mxServers.map (fun s => serverAddr s.host)
    (none, sendLoop cfg sendMail e servers)

/-- Lines 76-79 of `server.go`: the error-report message built by
`sendErrorMessage` from the error text `err`. -/
def errorEmail (cfg : Config) (err : String) : Email :=
  { From := "errors@" ++ extractDomain cfg.outboundSender
    Subject := "Application Error"
    Body := err }

/-- `sendErrorMessage` (lines 74-81 of `server.go`): builds the error-report
message and sends it through `Email.Send`, discarding that send's own error.
No code in the repository ever calls this function. -/
def sendErrorMessage (cfg : Config)
    (lookupMX : String → Except String (List MX))
    (sendMail : String → String → List String → String → Option String)
    (err : String) : Option String × List Attempt :=
  Send cfg lookupMX sendMail (errorEmail cfg err)

/-- A JSON value, for modelling the request body handed to the decoder. -/
inductive Json where
  | null
  | bool (b : Bool)
  | num (n : Int)
  | str (s : String)
  | arr (xs : List Json)
  | obj (fields : List (String × Json))

/-- Modelled from the spec: the decoding of one string field of the `Email`
struct by the standard library's `json.Decoder`, which is not part of this
repository's source.  A missing field leaves the Go zero value `""`; a
present field must be a JSON string.  (Field names are matched exactly here;
the struct tag `json:'-'` on `Subject` is not a valid Go tag — single quotes
— so `Subject` decodes like the others, and is overwritten by the handler
anyway.) -/
def getStringField (fields : List (String × Json)) (name : String) :
    Except String String :=
  match fields.find? (fun p => p.1 = name) with
  | none => .ok ""
  | some (_, .str s) => .ok s
  | some _ => .error ("cannot unmarshal field " ++ name)

/-- Modelled from the spec: `decoder.Decode(&message)` (line 132) for a
well-formed JSON body.  JSON `null` leaves the zero struct; a JSON object
decodes each string field via `getStringField`; any other JSON kind cannot
be unmarshalled into the struct. -/
def decodeEmail : Json → Except String Email
  | .null => .ok { From := "", Subject := "", Body := "" }
  | .obj fields => do
    let f ← getStringField fields "From"
    let s ← getStringField fields "Subject"
    let b ← getStringField fields "Body"
    .ok { From := f, Subject := s, Body := b }
  | _ => .error "cannot unmarshal JSON value into Email"

/-- The relevant parts of an HTTP request for `SendHandler.ServeHTTP`. -/
structure Request where
  method : String
  path : String
  contentType : String
  accept : String
deriving DecidableEq

/-- An HTTP response: the status code set by `w.WriteHeader` and the body
text written by `fmt.Fprint`/`Fprintf`. -/
structure Response where
  status : Nat
  body : String
deriving DecidableEq

/-- `SendHandler.ServeHTTP` (lines 113-146 of `server.go`).  `decodeResult`
is the outcome of `decoder.Decode(&message)` on the request body.  Returns
the response together with the message handed to the detached goroutine
(`none` when no send is started).  On a decode error the handler calls
`w.WriteHeader(http.StatusNotAcceptable)` — the constant for 406 — and then
writes the body text "422" (lines 134-135).  On success the goroutine sets
`message.Subject = "New Web Inquiry"` before calling `Send`. -/
def serveHTTP (req : Request) (decodeResult : Except String Email) :
    Response × Option Email :=
  if req.method ≠ "POST" ∨ req.path ≠ "/send" then
    ({ status := 404, body := "404" }, none)
  else if req.contentType ≠ "application/json" then
    ({ status := 415, body := "415" }, none)
  else if req.accept ≠ "*/*" ∧ req.accept ≠ "application/json" then
    ({ status := 406, body := "406" }, none)
  else
    match decodeResult with
    | .error _ => ({ status := 406, body := "422" }, none)
    | .ok message =>
      ({ status := 202, body := "" },
        some { message with Subject := "New Web Inquiry" })

/-- The detached goroutine spawned at lines 139-142 of `server.go`, viewed
as the list of Delivery-Engine invocations it triggers, each paired with its
result.  The goroutine body is `message.Subject = "New Web Inquiry";
message.Send()`: exactly one invocation, whose returned error is discarded —
in particular no call to `sendErrorMessage` follows a failed send. -/
def detachedDeliveries (cfg : Config)
    (lookupMX : String → Except String (List MX))
    (sendMail : String → String → List String → String → Option String)
    (m : Email) : List (Email × (Option String × List Attempt)) :=
  let m2 : Email := { m with Subject := "New Web Inquiry" }
  [(m2, Send cfg lookupMX sendMail m2)]

/-! ### Helper lemmas -/

/-- `splitOnChar` never returns the empty list (the Go `strings.Split`
contract: the result has at least one element). -/
theorem splitOnChar_ne_nil (c : Char) (l : List Char) : splitOnChar c l ≠ [] := by
  induction l with
  | nil => simp [splitOnChar]
  | cons x xs ih =>
    simp only [splitOnChar]
    split
    · simp
    · split <;> simp

/-- If the separator does not occur, `splitOnChar` returns the whole input
as its single token. -/
theorem splitOnChar_of_not_mem {c : Char} {l : List Char} (h : c ∉ l) :
    splitOnChar c l = [l] := by
  induction l with
  | nil => rfl
  | cons x xs ih =>
    simp only [List.mem_cons, not_or] at h
    simp only [splitOnChar, ih h.2]
    rw [if_neg (fun hh => h.1 hh.symm)]

/-- The text of the modelled serialization (the payload of `renderMessage`). -/
theorem renderMessage_eq (r : MessageRecord) :
    renderMessage r = .ok ("From: " ++ r.msgFrom ++ "\r\nTo: "
      ++ String.intercalate ", " r.rcpts ++ "\r\nSubject: " ++ r.subject
      ++ "\r\n\r\n" ++ r.text) := rfl

/-- One step of the candidate loop when the SMTP transaction fails: the
attempt is recorded and the loop continues with the remaining candidates. -/
theorem sendLoop_cons_fail {cfg : Config}
    {sendMail : String → String → List String → String → Option String}
    {e : Email} {server : String} {rest : List String} {err : String}
    (h : sendMail server cfg.outboundSender [cfg.inboxAddress]
        ((ConstructMessage cfg e).toOption.getD "") = some err) :
    sendLoop cfg sendMail e (server :: rest) =
      { server := server, mailFrom := cfg.outboundSender
        rcptTo := [cfg.inboxAddress]
        msg := (ConstructMessage cfg e).toOption.getD "" }
        :: sendLoop cfg sendMail e rest := by
  simp only [ConstructMessage, renderMessage, Except.toOption, Option.getD] at h ⊢
  simp [sendLoop, ConstructMessage, renderMessage, h]

/-- One step of the candidate loop when the SMTP transaction succeeds: the
attempt is recorded and the loop breaks. -/
theorem sendLoop_cons_ok {cfg : Config}
    {sendMail : String → String → List String → String → Option String}
    {e : Email} {server : String} {rest : List String}
    (h : sendMail server cfg.outboundSender [cfg.inboxAddress]
        ((ConstructMessage cfg e).toOption.getD "") = none) :
    sendLoop cfg sendMail e (server :: rest) =
      [{ server := server, mailFrom := cfg.outboundSender
         rcptTo := [cfg.inboxAddress]
         msg := (ConstructMessage cfg e).toOption.getD "" }] := by
  simp only [ConstructMessage, renderMessage, Except.toOption, Option.getD] at h ⊢
  simp [sendLoop, ConstructMessage, renderMessage, h]

/-- Every attempt recorded by the candidate loop carries the configured
envelope: recipient list `[inboxAddress]` and sender `outboundSender`. -/
theorem sendLoop_mem {cfg : Config}
    {sendMail : String → String → List String → String → Option String}
    {e : Email} {servers : List String} {att : Attempt}
    (h : att ∈ sendLoop cfg sendMail e servers) :
    att.rcptTo = [cfg.inboxAddress] ∧ att.mailFrom = cfg.outboundSender := by
  induction servers with
  | nil => simp [sendLoop] at h
  | cons s rest ih =>
    simp only [sendLoop, ConstructMessage, renderMessage] at h
    split at h
    · rcases List.mem_singleton.mp h with rfl
      exact ⟨rfl, rfl⟩
    · rcases List.mem_cons.mp h with rfl | hmem
      · exact ⟨rfl, rfl⟩
      · exact ih hmem

/-! ### Claim theorems -/

/-- C1 (code bug evaluation): with one MX candidate whose SMTP transaction
fails, `Send` makes the attempt yet returns no error — the loop-local `err`
of `msg, err :=` shadows the function-level `err` returned at line 71, so
the per-candidate error is swallowed and the result is nil, contradicting
the claim that the last encountered error is returned. -/
theorem send_swallows_smtp_errors :
    (Send { inboxAddress := "inbox@example.com"
            outboundSender := "sender@relay.example" }
        (fun _ => .ok [{ host := "mx.example.com", pref := 10 }])
        (fun _ _ _ _ => some "connection refused")
        { From := "user@a.example", Subject := "New Web Inquiry"
          Body := "hello" }).fst = none
    ∧ (Send { inboxAddress := "inbox@example.com"
              outboundSender := "sender@relay.example" }
        (fun _ => .ok [{ host := "mx.example.com", pref := 10 }])
        (fun _ _ _ _ => some "connection refused")
        { From := "user@a.example", Subject := "New Web Inquiry"
          Body := "hello" }).snd.map (fun t => t.server)
      = ["mx.example.com:25"] := by
  constructor <;> rfl

/-- C2 (code bug evaluation): on a JSON decode failure with valid method,
path and headers, the handler responds with status code 406
(`http.StatusNotAcceptable`) while writing the body text "422", and no send
is detached — contradicting the claim that the status code is 422. -/
theorem handler_json_error_status :
    serveHTTP { method := "POST", path := "/send"
                contentType := "application/json", accept := "*/*" }
        (.error "invalid character") =
      ({ status := 406, body := "422" }, none) := by
  rfl

/-- C3 (code bug evaluation): even when the detached send fails (here the
MX lookup fails, so `Send` returns a non-nil error), the goroutine triggers
exactly one Delivery-Engine invocation — the user message — and discards the
error; no "Application Error" message is constructed or sent, although
`errorEmail` (the construction `sendErrorMessage` would use) exists in the
source exactly as the claim describes. -/
theorem failed_send_error_not_reported :
    detachedDeliveries { inboxAddress := "inbox@example.com"
                         outboundSender := "sender@relay.example" }
        (fun _ => .error "dns failure")
        (fun _ _ _ _ => some "refused")
        { From := "visitor@site.example", Subject := "", Body := "hi" }
      = [({ From := "visitor@site.example", Subject := "New Web Inquiry"
            Body := "hi" },
          (some "dns failure", []))]
    ∧ errorEmail { inboxAddress := "inbox@example.com"
                   outboundSender := "sender@relay.example" } "dns failure"
      = { From := "errors@relay.example", Subject := "Application Error"
          Body := "dns failure" } := by
  constructor <;> rfl

/-- C4: when the MX lookup yields candidates A, B, C (and then possibly
more), A and B refuse every SMTP transaction and C accepts every one, `Send`
attempts exactly A, then B, then C, in that order, succeeds on C, and
attempts no further candidates after the first success. -/
theorem send_failover_order
    (cfg : Config) (e : Email)
    (lk : String → Except String (List MX))
    (sm : String → String → List String → String → Option String)
    (a b c : MX) (rest : List MX)
    (hlk : lk (extractDomain cfg.inboxAddress) = .ok (a :: b :: c :: rest))
    (hA : ∀ f r m, ∃ err, sm (serverAddr a.host) f r m = some err)
    (hB : ∀ f r m, ∃ err, sm (serverAddr b.host) f r m = some err)
    (hC : ∀ f r m, sm (serverAddr c.host) f r m = none) :
    (Send cfg lk sm e).snd.map (fun t => t.server)
        = [serverAddr a.host, serverAddr b.host, serverAddr c.host]
      ∧ (Send cfg lk sm e).fst = none := by
  obtain ⟨eA, hA'⟩ := hA cfg.outboundSender [cfg.inboxAddress]
    ((ConstructMessage cfg e).toOption.getD "")
  obtain ⟨eB, hB'⟩ := hB cfg.outboundSender [cfg.inboxAddress]
    ((ConstructMessage cfg e).toOption.getD "")
  have hC' := hC cfg.outboundSender [cfg.inboxAddress]
    ((ConstructMessage cfg e).toOption.getD "")
  simp only [Send, hlk, List.map_cons]
  rw [sendLoop_cons_fail hA', sendLoop_cons_fail hB', sendLoop_cons_ok hC']
  simp

/-- C5: when the MX lookup for the domain extracted from the inbox address
fails, `Send` returns that resolution error and makes zero SMTP attempts. -/
theorem send_mx_failure (cfg : Config) (e : Email)
    (lk : String → Except String (List MX))
    (sm : String → String → List String → String → Option String)
    (err : String)
    (h : lk (extractDomain cfg.inboxAddress) = .error err) :
    Send cfg lk sm e = (some err, []) := by
  simp [Send, h]

/-- Witness for C5 at a concrete failing lookup. -/
theorem send_mx_failure_witness :
    Send { inboxAddress := "inbox@example.com"
           outboundSender := "sender@relay.example" }
        (fun _ => .error "no such host")
        (fun _ _ _ _ => none)
        { From := "a", Subject := "b", Body := "c" }
      = (some "no such host", []) :=
  send_mx_failure _ _ _ _ _ rfl

/-- C6: when the MX lookup returns zero records with no error, the candidate
loop never runs, no SMTP attempt is made, and `Send` returns nil. -/
theorem send_empty_mx (cfg : Config) (e : Email)
    (lk : String → Except String (List MX))
    (sm : String → String → List String → String → Option String)
    (h : lk (extractDomain cfg.inboxAddress) = .ok []) :
    Send cfg lk sm e = (none, []) := by
  simp [Send, h, sendLoop]

/-- Witness for C6 at a concrete empty lookup. -/
theorem send_empty_mx_witness :
    Send { inboxAddress := "inbox@example.com"
           outboundSender := "sender@relay.example" }
        (fun _ => .ok [])
        (fun _ _ _ _ => some "never reached")
        { From := "a", Subject := "b", Body := "c" }
      = (none, []) :=
  send_empty_mx _ _ _ _ rfl

/-- C7: the Message Builder is a pure function — two calls on inputs with
identical From, Subject and Body (under the same configuration, hence the
same fixed inbox address) produce byte-identical output. -/
theorem constructMessage_deterministic (cfg : Config) (m1 m2 : Email)
    (h1 : m1.From = m2.From) (h2 : m1.Subject = m2.Subject)
    (h3 : m1.Body = m2.Body) :
    ConstructMessage cfg m1 = ConstructMessage cfg m2 := by
  cases m1
  cases m2
  cases h1
  cases h2
  cases h3
  rfl

/-- Witness for C7 at concrete identical inputs. -/
theorem constructMessage_deterministic_witness :
    ConstructMessage { inboxAddress := "inbox@example.com"
                       outboundSender := "sender@relay.example" }
        { From := "a@b", Subject := "s", Body := "t" }
      = ConstructMessage { inboxAddress := "inbox@example.com"
                           outboundSender := "sender@relay.example" }
          { From := "a@b", Subject := "s", Body := "t" } :=
  constructMessage_deterministic _ _ _ rfl rfl rfl

/-- Witness for C4: four candidates, where only the third accepts; the trace
is exactly the first three servers in order and `Send` reports success. -/
theorem send_failover_order_witness :
    (Send { inboxAddress := "inbox@example.com"
            outboundSender := "sender@relay.example" }
        (fun _ => .ok [{ host := "mxa.example", pref := 1 },
                       { host := "mxb.example", pref := 2 },
                       { host := "mxc.example", pref := 3 },
                       { host := "mxd.example", pref := 4 }])
        (fun s _ _ _ => if s = "mxc.example:25" then none else some "busy")
        { From := "a@b", Subject := "s", Body := "t" }).snd.map
          (fun t => t.server)
        = [serverAddr "mxa.example", serverAddr "mxb.example",
           serverAddr "mxc.example"]
      ∧ (Send { inboxAddress := "inbox@example.com"
                outboundSender := "sender@relay.example" }
          (fun _ => .ok [{ host := "mxa.example", pref := 1 },
                         { host := "mxb.example", pref := 2 },
                         { host := "mxc.example", pref := 3 },
                         { host := "mxd.example", pref := 4 }])
          (fun s _ _ _ => if s = "mxc.example:25" then none else some "busy")
          { From := "a@b", Subject := "s", Body := "t" }).fst = none :=
  send_failover_order _ _ _ _
    { host := "mxa.example", pref := 1 } { host := "mxb.example", pref := 2 }
    { host := "mxc.example", pref := 3 } [{ host := "mxd.example", pref := 4 }]
    rfl
    (fun _ _ _ => ⟨"busy", by rfl⟩)
    (fun _ _ _ => ⟨"busy", by rfl⟩)
    (fun _ _ _ => by rfl)

/-- C8: every SMTP attempt made by `Send` uses envelope recipient list
`[inboxAddress]` and envelope sender `outboundSender` — both process
configuration, neither taken from the message payload — and the message
object built by `ConstructMessage` has exactly the fixed inbox address as
its single To recipient. -/
theorem send_fixed_envelope (cfg : Config) (m : Email)
    (lk : String → Except String (List MX))
    (sm : String → String → List String → String → Option String)
    (att : Attempt) (h : att ∈ (Send cfg lk sm m).snd) :
    att.rcptTo = [cfg.inboxAddress] ∧ att.mailFrom = cfg.outboundSender
      ∧ (buildRecord cfg m).rcpts = [cfg.inboxAddress] := by
  simp only [Send] at h
  cases hlk : lk (extractDomain cfg.inboxAddress) with
  | error err => rw [hlk] at h; simp at h
  | ok mxs =>
    rw [hlk] at h
    simp only at h
    exact ⟨(sendLoop_mem h).1, (sendLoop_mem h).2, rfl⟩

/-- Witness for C8 at a concrete failing attempt. -/
theorem send_fixed_envelope_witness :
    { server := "mx.example.com:25", mailFrom := "sender@relay.example"
      rcptTo := ["inbox@example.com"]
      msg := "From: a@b\r\nTo: inbox@example.com\r\nSubject: s\r\n\r\nt"
      : Attempt }.rcptTo = ["inbox@example.com"]
    ∧ { server := "mx.example.com:25", mailFrom := "sender@relay.example"
        rcptTo := ["inbox@example.com"]
        msg := "From: a@b\r\nTo: inbox@example.com\r\nSubject: s\r\n\r\nt"
        : Attempt }.mailFrom = "sender@relay.example"
    ∧ (buildRecord { inboxAddress := "inbox@example.com"
                     outboundSender := "sender@relay.example" }
        { From := "a@b", Subject := "s", Body := "t" }).rcpts
      = ["inbox@example.com"] :=
  send_fixed_envelope
    { inboxAddress := "inbox@example.com"
      outboundSender := "sender@relay.example" }
    { From := "a@b", Subject := "s", Body := "t" }
    (fun _ => .ok [{ host := "mx.example.com", pref := 10 }])
    (fun _ _ _ _ => some "refused")
    _ (by decide)

/-- C9: the domain-extraction step of `Send` is total — splitting any
address on the at sign yields a non-empty token list — and for an address
containing no at sign the extracted domain is the entire address. -/
theorem extractDomain_total (addr : String) :
    splitOnChar '@' addr.toList ≠ []
      ∧ ('@' ∉ addr.toList → extractDomain addr = addr) := by
  refine ⟨splitOnChar_ne_nil _ _, fun h => ?_⟩
  rw [extractDomain, splitOnChar_of_not_mem h]
  simpa using String.asString_toList addr

/-- Witness for C9 at an inbox address with no at sign. -/
theorem extractDomain_total_witness :
    splitOnChar '@' "localhost".toList ≠ []
      ∧ ('@' ∉ "localhost".toList
          ∧ extractDomain "localhost" = "localhost") :=
  ⟨(extractDomain_total "localhost").1,
   by decide,
   (extractDomain_total "localhost").2 (by decide)⟩

/-- C10: for a POST /send request with correct Content-Type and an
acceptable Accept header whose body is a JSON object that decodes (missing
`From`/`Body` fields decode to empty strings, as the empty object shows),
the handler responds 202 and detaches a send of the decoded message with
its Subject overwritten — no presence validation of From or Body occurs. -/
theorem handler_no_field_validation (req : Request)
    (fields : List (String × Json)) (m : Email)
    (hm : req.method = "POST") (hp : req.path = "/send")
    (hct : req.contentType = "application/json")
    (hac : req.accept = "*/*" ∨ req.accept = "application/json")
    (hdec : decodeEmail (Json.obj fields) = .ok m) :
    serveHTTP req (decodeEmail (Json.obj fields))
        = ({ status := 202, body := "" },
            some { From := m.From, Subject := "New Web Inquiry"
                   Body := m.Body })
      ∧ decodeEmail (Json.obj [])
        = .ok { From := "", Subject := "", Body := "" } := by
  refine ⟨?_, rfl⟩
  rw [hdec]
  cases m
  rcases hac with h | h <;> simp [serveHTTP, hm, hp, hct, h]

/-- Witness for C10: the empty JSON object — no From, no Body — is accepted
with 202 and a send of the all-empty-fields message is detached. -/
theorem handler_no_field_validation_witness :
    serveHTTP { method := "POST", path := "/send"
                contentType := "application/json", accept := "*/*" }
        (decodeEmail (Json.obj []))
        = ({ status := 202, body := "" },
            some { From := "", Subject := "New Web Inquiry", Body := "" })
      ∧ decodeEmail (Json.obj [])
        = .ok { From := "", Subject := "", Body := "" } :=
  handler_no_field_validation
    { method := "POST", path := "/send"
      contentType := "application/json", accept := "*/*" }
    [] { From := "", Subject := "", Body := "" }
    rfl rfl rfl (Or.inl rfl) rfl
